import Mathlib

/-!
Shallow embedding of the client-side conversation/message lifecycle manager
of the Prana-guru repository: the `ChatPage` React component
(frontend/src/pages/ChatPage.jsx), whose state hooks realise the spec's
Transcript State (`messages`), Send Pipeline (`handleSendMessage` plus the
`isLoading` flag), Conversation Directory (`conversations`) and Navigation
Binder (`currentConversationId` together with the `:conversationId` route
parameter and its `useEffect`).

Modelling decisions, each traceable to the source:
* Component state is a record `ChatState`; each React `useState` hook is a
  field.  The route parameter `conversationId` (from `useParams`) is the
  field `routeParam`; `navigate("/chat/...")` is modelled as writing it.
* An in-flight send is the suspended tail of `handleSendMessage`.  The
  values its closure captured at submission time (`tempUserMsg.id`,
  `userMessage`, and the render-time `currentConversationId`) are stored in
  an `InFlightSend` record; the code's boolean `isLoading` is exactly
  `inflight.isSome` (set to `true` before the request, reset in `finally`).
* Message ids: the optimistic message gets the id `temp-${Date.now()}`,
  while every id coming back from the server is a durable UUID string,
  which never has the `temp-` shape.  The two disjoint id spaces are
  modelled as the two constructors of `MsgId`; `Date.now()` is the `Nat`
  argument of `MsgId.temp`.  The reconciliation filter compares ids for
  equality, exactly as `m.id !== tempUserMsg.id` does.
* Asynchrony: every network round trip is a suspension point.  A run of the
  component is a sequence of atomic `Event`s — the synchronous prologue of a
  handler, or the resumption of one of its awaited continuations — applied
  by `step`.  Fire-and-forget requests (`fetchConversations`,
  `fetchConversation`) have their completions as separate events.
* `serverEvent` records the environment assumption that payloads produced
  by the backend carry durable ids only (the backend assigns UUID4 ids).
-/

/-- Identifier of a message.  `temp n` is the locally generated transient id
`temp-${Date.now()}` (with `n` the clock reading); `server s` is a durable
server-assigned UUID.  The two id spaces are disjoint. -/
inductive MsgId where
  | temp (n : Nat)
  | server (s : String)
deriving DecidableEq, Repr

/-- Optional scripture citation attached to an assistant message
(`msg.shloka` in the source). -/
structure Shloka where
  sanskrit : String
  translation : String
  source : String
deriving DecidableEq, Repr

/-- One entry of the transcript, the shape handled by `ChatPage`
(`{id, role, content, timestamp}`, plus `shloka` on assistant replies). -/
structure Msg where
  id : MsgId
  role : String
  content : String
  timestamp : String
  shloka : Option Shloka := none
deriving DecidableEq, Repr

/-- A message is transient (the spec's `status = pending`) iff its id is a
locally generated `temp-` id; every other entry is implicitly confirmed. -/
def Msg.isTransient (m : Msg) : Bool :=
  match m.id with
  | .temp _ => true
  | .server _ => false

/-- One sidebar entry (`{id, title, updated_at}` consumed by the list). -/
structure ConvSummary where
  id : String
  title : String
  updated_at : String
deriving DecidableEq, Repr

/-- Body of a successful `POST /api/chat` response:
`{conversation_id, message, guru_response}`. -/
structure ChatResponse where
  conversation_id : String
  message : Msg
  guru_response : Msg
deriving DecidableEq, Repr

/-- The data captured by `handleSendMessage`'s closure while its request is
awaited: the optimistic message's id, the trimmed text (for the rollback
restore), and the render-time `currentConversationId` used by the
`if (!currentConversationId)` check after the await. -/
structure InFlightSend where
  tempId : MsgId
  userMessage : String
  convIdAtStart : Option String
deriving DecidableEq, Repr

/-- The `ChatPage` component state.  `message` is the input buffer,
`messages` the transcript, `currentConversationId` the Navigation Binder's
active id (`none` = Draft), `routeParam` the `:conversationId` URL segment,
`conversations` the directory, `inflight` the suspended send (if any). -/
structure ChatState where
  message : String
  messages : List Msg
  currentConversationId : Option String
  routeParam : Option String
  conversations : List ConvSummary
  inflight : Option InFlightSend
  isSidebarOpen : Bool
deriving DecidableEq, Repr

/-- The source's `isLoading` flag: `true` exactly while a send is awaited. -/
def ChatState.isLoading (s : ChatState) : Bool :=
  s.inflight.isSome

/-- Count of transient (`pending`) entries in the displayed transcript. -/
def pendingCount (s : ChatState) : Nat :=
  (s.messages.filter fun m => m.isTransient).length

/-- Count of confirmed entries (durable id, i.e. not transient). -/
def confirmedCount (s : ChatState) : Nat :=
  (s.messages.filter fun m => !m.isTransient).length

/-- JavaScript `String.prototype.trim`: strip whitespace from both ends.
(Defined over the character list so that concrete inputs evaluate.) -/
def jsTrim (t : String) : String :=
  ⟨((t.data.dropWhile Char.isWhitespace).reverse.dropWhile Char.isWhitespace).reverse⟩

/-- Outcome of the synchronous prologue of `handleSendMessage`.  The guard
`if (!message.trim() || isLoading) return;` rejects before any state change
or network call; evaluation order of `||` distinguishes the empty-input
rejection from the send-in-flight rejection.  `started id` means the
optimistic append happened and the `POST /api/chat` request was issued. -/
inductive SendOutcome where
  | validationError
  | concurrentSendError
  | started (tempId : MsgId)
deriving DecidableEq, Repr

/-- Whether the prologue issued the network request. -/
def SendOutcome.issuedRequest : SendOutcome → Bool
  | .started _ => true
  | _ => false

/-- The optimistic `tempUserMsg` literal of `handleSendMessage`
(`{id: temp-now, role: "user", content, timestamp}`). -/
def tempMsg (now : Nat) (content : String) : Msg :=
  { id := .temp now, role := "user", content := content,
    timestamp := toString now }

/-- Synchronous prologue of `handleSendMessage` (source lines 444-466),
run at clock reading `now`: guard, clear the input buffer, set `isLoading`,
append the optimistic `tempUserMsg`, issue the request. -/
def handleSendMessageStart (s : ChatState) (now : Nat) : SendOutcome × ChatState :=
  if jsTrim s.message = "" then
    (.validationError, s)
  else if s.isLoading then
    (.concurrentSendError, s)
  else
    let userMessage := jsTrim s.message
    let tempUserMsg : Msg := tempMsg now userMessage
    (.started tempUserMsg.id,
      { s with
          message := "",
          messages := s.messages ++ [tempUserMsg],
          inflight := some { tempId := tempUserMsg.id,
                             userMessage := userMessage,
                             convIdAtStart := s.currentConversationId } })

/-- Success continuation of `handleSendMessage` (lines 468-481 and the
`finally`): one `setMessages` call removes the entry with the captured
transient id and appends the server-confirmed user message and the guru
reply; if the closure's `currentConversationId` was null, adopt the
newly assigned id and `navigate` to it; reset `isLoading`. -/
def handleSendSuccess (s : ChatState) (ctx : InFlightSend) (resp : ChatResponse) :
    ChatState :=
  let filtered := s.messages.filter fun m => m.id ≠ ctx.tempId
  let s1 := { s with messages := filtered ++ [resp.message, resp.guru_response] }
  let s2 :=
    if ctx.convIdAtStart = none then
      { s1 with currentConversationId := some resp.conversation_id,
                routeParam := some resp.conversation_id }
    else s1
  { s2 with inflight := none }

/-- Failure continuation of `handleSendMessage` (lines 482-491): remove the
optimistic entry, restore the captured text into the input buffer, reset
`isLoading`.  (The toast notification has no component state.) -/
def handleSendFailure (s : ChatState) (ctx : InFlightSend) : ChatState :=
  { s with
      messages := s.messages.filter fun m => m.id ≠ ctx.tempId,
      message := ctx.userMessage,
      inflight := none }

/-- The handler `handleNewConversation` (lines 494-499): clear the active id and the
transcript, close the sidebar, `navigate("/chat")`. -/
def handleNewConversation (s : ChatState) : ChatState :=
  { s with
      currentConversationId := none,
      messages := [],
      isSidebarOpen := false,
      routeParam := none }

/-- The handler `handleSelectConversation` (lines 501-506): set the active id, issue
`fetchConversation` (completion modelled as a separate event), close the
sidebar, `navigate` to the conversation. -/
def handleSelectConversation (s : ChatState) (convId : String) : ChatState :=
  { s with
      currentConversationId := some convId,
      isSidebarOpen := false,
      routeParam := some convId }

/-- Success continuation of `handleDeleteConversation` (lines 508-521):
after the DELETE succeeds, a directory refresh is issued (its completion is
a separate event) and, only when the deleted conversation is the active
one, `handleNewConversation` runs. -/
def handleDeleteConversation (s : ChatState) (convId : String) : ChatState :=
  if s.currentConversationId = some convId then handleNewConversation s else s

/-- The `useEffect` on the `:conversationId` route parameter (lines
402-407): when the URL names a conversation different from the active one,
adopt it and issue a `fetchConversation` history load.  Returns the new
state and whether the history load was issued. -/
def conversationIdEffect (s : ChatState) : ChatState × Bool :=
  match s.routeParam with
  | some c =>
      if s.currentConversationId ≠ some c then
        ({ s with currentConversationId := some c }, true)
      else (s, false)
  | none => (s, false)

/-- Atomic scheduler events: the synchronous prologue of a handler, or the
resumption of one awaited continuation.  Payload-carrying events model the
data the environment (user keystrokes, server responses) supplies. -/
inductive Event where
  | setInput (t : String)
  | submit (now : Nat)
  | sendOk (resp : ChatResponse)
  | sendErr
  | selectConv (c : String)
  | newConv
  | historyLoaded (msgs : List Msg)
  | deleteOk (c : String)
  | deleteErr (c : String)
  | dirLoaded (convs : List ConvSummary)
  | paramEffect
deriving Repr

/-- One atomic step of the component.  `sendOk`/`sendErr` resume the
in-flight send's continuation (a completion with no send in flight has no
continuation to run); `historyLoaded` is `fetchConversation` resolving
(`setMessages(response.data.messages)`), `dirLoaded` is `fetchConversations`
resolving, `deleteErr` is the DELETE's catch branch (toast only),
`paramEffect` is the route-parameter effect firing. -/
def step (s : ChatState) : Event → ChatState
  | .setInput t => { s with message := t }
  | .submit now => (handleSendMessageStart s now).2
  | .sendOk resp =>
      match s.inflight with
      | some ctx => handleSendSuccess s ctx resp
      | none => s
  | .sendErr =>
      match s.inflight with
      | some ctx => handleSendFailure s ctx
      | none => s
  | .selectConv c => handleSelectConversation s c
  | .newConv => handleNewConversation s
  | .historyLoaded msgs => { s with messages := msgs }
  | .deleteOk c => handleDeleteConversation s c
  | .deleteErr _ => s
  | .dirLoaded convs => { s with conversations := convs }
  | .paramEffect => (conversationIdEffect s).1

/-- Environment assumption on server-supplied payloads: the backend assigns
durable UUID ids, so no message arriving from the network is transient. -/
def serverEvent : Event → Bool
  | .sendOk resp => !resp.message.isTransient && !resp.guru_response.isTransient
  | .historyLoaded msgs => msgs.all fun m => !m.isTransient
  | _ => true

/-- Mount-time state (lines 380-389): empty buffer and transcript, active
id taken from the route parameter (`useState(conversationId || null)`),
nothing in flight. -/
def initState (p : Option String) : ChatState :=
  { message := ""
    messages := []
    currentConversationId := p
    routeParam := p
    conversations := []
    inflight := none
    isSidebarOpen := false }

/-- States reachable from some mount by steps whose server-supplied
payloads are well-formed. -/
inductive Reachable : ChatState → Prop where
  | init (p : Option String) : Reachable (initState p)
  | step {s : ChatState} {e : Event} :
      Reachable s → serverEvent e = true → Reachable (step s e)

/-! ## Concrete states and payloads used to instantiate the theorems -/

/-- A freshly mounted draft page with "hello" typed into the input. -/
def s0 : ChatState := step (initState none) (.setInput "hello")

/-- A well-formed server response for a send (durable UUID-style ids). -/
def respW : ChatResponse :=
  { conversation_id := "conv-1",
    message := { id := .server "u1", role := "user", content := "hello",
                 timestamp := "t1" },
    guru_response := { id := .server "g1", role := "assistant",
                       content := "peace", timestamp := "t2",
                       shloka := some { sanskrit := "om", translation := "om",
                                        source := "Gita 2.47" } } }

/-- A message of conversation B's server history. -/
def msgB1 : Msg :=
  { id := .server "b1", role := "user", content := "b hello", timestamp := "t0" }

/-- The server response to the send issued against conversation A. -/
def respA : ChatResponse :=
  { conversation_id := "A",
    message := { id := .server "a1", role := "user", content := "hello from A",
                 timestamp := "t1" },
    guru_response := { id := .server "a2", role := "assistant",
                       content := "reply for A", timestamp := "t2" } }

/-- The race of claim C2, step by step: mounted on conversation A, the user
types and submits a message; before the response arrives they select
conversation B and B's history loads; then A's response arrives and the
in-flight send's success continuation runs. -/
def leakTrace : ChatState :=
  step (step (step (step (step (initState (some "A"))
    (.setInput "hello from A")) (.submit 5)) (.selectConv "B"))
    (.historyLoaded [msgB1])) (.sendOk respA)

/-- A state with a send in flight and new text typed into the input. -/
def sC5 : ChatState := step (step s0 (.submit 1)) (.setInput "again")

/-- A draft page whose input buffer holds only whitespace. -/
def sWs : ChatState := step (initState none) (.setInput "   ")

/-- A page mounted on existing conversation A. -/
def sA : ChatState := initState (some "A")

/-- A draft page with a send in flight. -/
def sInflight : ChatState := step s0 (.submit 3)

/-- A directory entry returned by a `fetchConversations` refresh. -/
def convW : ConvSummary := { id := "A", title := "first chat", updated_at := "u1" }

/-! ## Shape lemmas about the handlers -/

theorem handleSendSuccess_messages (s : ChatState) (ctx : InFlightSend)
    (resp : ChatResponse) :
    (handleSendSuccess s ctx resp).messages =
      (s.messages.filter fun m => m.id ≠ ctx.tempId) ++
        [resp.message, resp.guru_response] := by
  unfold handleSendSuccess
  by_cases hc : ctx.convIdAtStart = none <;> simp [hc]

theorem handleSendSuccess_inflight (s : ChatState) (ctx : InFlightSend)
    (resp : ChatResponse) :
    (handleSendSuccess s ctx resp).inflight = none := by
  unfold handleSendSuccess
  by_cases hc : ctx.convIdAtStart = none <;> simp [hc]

theorem conversationIdEffect_messages (s : ChatState) :
    (conversationIdEffect s).1.messages = s.messages := by
  unfold conversationIdEffect
  rcases hr : s.routeParam with _ | c <;> simp
  by_cases hc : s.currentConversationId = some c <;> simp [hc]

theorem conversationIdEffect_inflight (s : ChatState) :
    (conversationIdEffect s).1.inflight = s.inflight := by
  unfold conversationIdEffect
  rcases hr : s.routeParam with _ | c <;> simp
  by_cases hc : s.currentConversationId = some c <;> simp [hc]

/-! ## The single-pending invariant -/

/-- Inductive invariant of the component: every transient entry of the
transcript is the optimistic message of the send currently in flight; with
no send in flight the transcript is fully confirmed; and the transcript
never holds more than one transient entry. -/
def ChatInv (s : ChatState) : Prop :=
  (∀ ctx, s.inflight = some ctx →
      ∀ m ∈ s.messages, m.isTransient = true → m.id = ctx.tempId) ∧
  (s.inflight = none → ∀ m ∈ s.messages, m.isTransient = false) ∧
  pendingCount s ≤ 1

theorem id_ne_temp_of_not_transient {m : Msg} (h : m.isTransient = false)
    (n : Nat) : m.id ≠ MsgId.temp n := by
  intro hid
  unfold Msg.isTransient at h
  rw [hid] at h
  simp at h

theorem filter_transient_eq_nil {l : List Msg}
    (h : ∀ m ∈ l, m.isTransient = false) :
    (l.filter fun m => m.isTransient) = [] := by
  rw [List.filter_eq_nil_iff]
  intro a ha
  simp [h a ha]

theorem no_transient_after_filter {l : List Msg} {tid : MsgId}
    (h : ∀ m ∈ l, m.isTransient = true → m.id = tid) :
    ∀ m ∈ l.filter (fun m => m.id ≠ tid), m.isTransient = false := by
  intro m hm
  rw [List.mem_filter] at hm
  obtain ⟨hml, hid⟩ := hm
  rcases Bool.eq_false_or_eq_true m.isTransient with ht | hf
  · exfalso
    have := h m hml ht
    simp [this] at hid
  · exact hf

theorem chatInv_of_same {s t : ChatState} (hInv : ChatInv s)
    (hm : t.messages = s.messages) (hi : t.inflight = s.inflight) : ChatInv t := by
  obtain ⟨h1, h2, h3⟩ := hInv
  refine ⟨?_, ?_, ?_⟩
  · intro ctx hctx m hmm htr
    exact h1 ctx (hi ▸ hctx) m (hm ▸ hmm) htr
  · intro hn m hmm
    exact h2 (hi ▸ hn) m (hm ▸ hmm)
  · unfold pendingCount
    rw [hm]
    exact h3

theorem chatInv_of_empty {t : ChatState} (hm : t.messages = []) : ChatInv t := by
  refine ⟨?_, ?_, ?_⟩
  · intro ctx _ m hmm
    rw [hm] at hmm
    exact absurd hmm (List.not_mem_nil m)
  · intro _ m hmm
    rw [hm] at hmm
    exact absurd hmm (List.not_mem_nil m)
  · unfold pendingCount
    rw [hm]
    simp

theorem chatInv_of_all_confirmed {t : ChatState}
    (h : ∀ m ∈ t.messages, m.isTransient = false) : ChatInv t := by
  refine ⟨?_, fun _ => h, ?_⟩
  · intro ctx _ m hmm htr
    exact absurd htr (by simp [h m hmm])
  · unfold pendingCount
    rw [filter_transient_eq_nil h]
    simp

theorem chatInv_init (p : Option String) : ChatInv (initState p) :=
  chatInv_of_empty rfl

theorem handleSendMessageStart_validation {s : ChatState} (now : Nat)
    (ht : jsTrim s.message = "") :
    handleSendMessageStart s now = (.validationError, s) := by
  unfold handleSendMessageStart
  rw [if_pos ht]

theorem handleSendMessageStart_concurrent {s : ChatState} (now : Nat)
    (ht : jsTrim s.message ≠ "") (hl : s.isLoading = true) :
    handleSendMessageStart s now = (.concurrentSendError, s) := by
  unfold handleSendMessageStart
  rw [if_neg ht, hl]
  rfl

theorem handleSendMessageStart_accepted {s : ChatState} (now : Nat)
    (ht : jsTrim s.message ≠ "") (hl : s.inflight = none) :
    handleSendMessageStart s now =
      (.started (.temp now),
        { s with
            message := "",
            messages := s.messages ++ [tempMsg now (jsTrim s.message)],
            inflight := some { tempId := .temp now,
                               userMessage := jsTrim s.message,
                               convIdAtStart := s.currentConversationId } }) := by
  unfold handleSendMessageStart
  have hl' : s.isLoading = false := by
    unfold ChatState.isLoading
    rw [hl]
    rfl
  rw [if_neg ht, hl']
  rfl

theorem step_submit_accepted {s : ChatState} (now : Nat)
    (ht : jsTrim s.message ≠ "") (hl : s.inflight = none) :
    step s (.submit now) =
      { s with
          message := "",
          messages := s.messages ++ [tempMsg now (jsTrim s.message)],
          inflight := some { tempId := .temp now,
                             userMessage := jsTrim s.message,
                             convIdAtStart := s.currentConversationId } } := by
  show (handleSendMessageStart s now).2 = _
  rw [handleSendMessageStart_accepted now ht hl]

theorem step_sendOk_of_inflight {s : ChatState} {ctx : InFlightSend}
    (h : s.inflight = some ctx) (resp : ChatResponse) :
    step s (.sendOk resp) = handleSendSuccess s ctx resp := by
  unfold step
  rw [h]

theorem step_sendErr_of_inflight {s : ChatState} {ctx : InFlightSend}
    (h : s.inflight = some ctx) :
    step s .sendErr = handleSendFailure s ctx := by
  unfold step
  rw [h]

theorem filter_ne_temp_of_confirmed {l : List Msg} {n : Nat}
    (h : ∀ m ∈ l, m.isTransient = false) :
    (l.filter fun m => m.id ≠ MsgId.temp n) = l := by
  rw [List.filter_eq_self]
  intro a ha
  simp [id_ne_temp_of_not_transient (h a ha) n]

theorem filter_tempMsg_self (now : Nat) (c : String) :
    ([tempMsg now c].filter fun m => m.id ≠ MsgId.temp now) = [] := by
  simp [tempMsg]

theorem chatInv_step {s : ChatState} {e : Event} (hInv : ChatInv s)
    (hg : serverEvent e = true) : ChatInv (step s e) := by
  obtain ⟨h1, h2, h3⟩ := hInv
  cases e with
  | setInput t => exact chatInv_of_same ⟨h1, h2, h3⟩ rfl rfl
  | submit now =>
    show ChatInv (handleSendMessageStart s now).2
    by_cases ht : jsTrim s.message = ""
    · rw [handleSendMessageStart_validation now ht]
      exact ⟨h1, h2, h3⟩
    · by_cases hl : s.isLoading = true
      · rw [handleSendMessageStart_concurrent now ht hl]
        exact ⟨h1, h2, h3⟩
      · have hnone : s.inflight = none := by
          unfold ChatState.isLoading at hl
          exact Option.not_isSome_iff_eq_none.mp hl
        have hconf := h2 hnone
        rw [handleSendMessageStart_accepted now ht hnone]
        refine ⟨?_, ?_, ?_⟩
        · intro ctx hctx m hmm htr
          injection hctx with hceq
          rw [List.mem_append] at hmm
          rcases hmm with hmold | hmnew
          · exact absurd htr (by simp [hconf m hmold])
          · rw [List.mem_singleton] at hmnew
            subst hmnew
            rw [← hceq]
            rfl
        · intro hn
          exact (Option.some_ne_none _ hn).elim
        · show (List.filter _ (s.messages ++ [_])).length ≤ 1
          rw [List.filter_append, filter_transient_eq_nil hconf]
          simp [Msg.isTransient, tempMsg]
  | sendOk resp =>
    show ChatInv (step s (.sendOk resp))
    unfold step
    rcases hs : s.inflight with _ | ctx
    · exact chatInv_of_same ⟨h1, h2, h3⟩ rfl rfl
    · have hresp : resp.message.isTransient = false ∧
          resp.guru_response.isTransient = false := by
        unfold serverEvent at hg
        simp only [Bool.and_eq_true, Bool.not_eq_true'] at hg
        exact hg
      refine chatInv_of_all_confirmed ?_
      rw [handleSendSuccess_messages]
      intro m hm
      rw [List.mem_append] at hm
      rcases hm with hmf | hmr
      · exact no_transient_after_filter (h1 ctx hs) m hmf
      · simp only [List.mem_cons, List.not_mem_nil, or_false] at hmr
        rcases hmr with rfl | rfl
        · exact hresp.1
        · exact hresp.2
  | sendErr =>
    show ChatInv (step s .sendErr)
    unfold step
    rcases hs : s.inflight with _ | ctx
    · exact chatInv_of_same ⟨h1, h2, h3⟩ rfl rfl
    · refine chatInv_of_all_confirmed ?_
      show ∀ m ∈ (handleSendFailure s ctx).messages, m.isTransient = false
      unfold handleSendFailure
      exact no_transient_after_filter (h1 ctx hs)
  | selectConv c => exact chatInv_of_same ⟨h1, h2, h3⟩ rfl rfl
  | newConv => exact chatInv_of_empty rfl
  | historyLoaded msgs =>
    refine chatInv_of_all_confirmed ?_
    unfold serverEvent at hg
    rw [List.all_eq_true] at hg
    intro m hm
    have := hg m hm
    simpa using this
  | deleteOk c =>
    show ChatInv (handleDeleteConversation s c)
    unfold handleDeleteConversation
    by_cases hc : s.currentConversationId = some c
    · simp only [hc, if_pos rfl]
      exact chatInv_of_empty rfl
    · simp only [if_neg hc]
      exact ⟨h1, h2, h3⟩
  | deleteErr c => exact chatInv_of_same ⟨h1, h2, h3⟩ rfl rfl
  | dirLoaded convs => exact chatInv_of_same ⟨h1, h2, h3⟩ rfl rfl
  | paramEffect =>
    exact chatInv_of_same ⟨h1, h2, h3⟩ (conversationIdEffect_messages s)
      (conversationIdEffect_inflight s)

theorem chatInv_of_reachable {s : ChatState} (h : Reachable s) : ChatInv s := by
  induction h with
  | init p => exact chatInv_init p
  | step hr hg ih => exact chatInv_step ih hg

theorem handleSendSuccess_adopt (s : ChatState) (ctx : InFlightSend)
    (resp : ChatResponse) (hc : ctx.convIdAtStart = none) :
    handleSendSuccess s ctx resp =
      { s with
          messages := (s.messages.filter fun m => m.id ≠ ctx.tempId) ++
            [resp.message, resp.guru_response],
          currentConversationId := some resp.conversation_id,
          routeParam := some resp.conversation_id,
          inflight := none } := by
  unfold handleSendSuccess
  simp only [hc, if_pos]

/-! ## The claims -/

/-- C1: in every reachable state of the transcript, the number of pending
(transient, not-yet-confirmed) user messages is 0 or 1; every operation of
the component (optimistic append on submit, confirm on success, rollback on
failure, history load, conversation switch, reset, deletion) preserves the
bound. -/
theorem C1_pending_at_most_one {s : ChatState} (h : Reachable s) :
    pendingCount s = 0 ∨ pendingCount s = 1 := by
  have h3 := (chatInv_of_reachable h).2.2
  omega

theorem C1_pending_at_most_one_witness :
    pendingCount sInflight = 0 ∨ pendingCount sInflight = 1 :=
  C1_pending_at_most_one
    (Reachable.step (Reachable.step (Reachable.init none) (by rfl)) (by rfl))

/-- C2, counterexample: the code does NOT discard a completion that arrives
after the user has navigated away.  In the concrete run `leakTrace` — a send
is started against conversation A, the user selects conversation B, B's
history loads, then A's response arrives — the success continuation of
`handleSendMessage` filters and appends with no version or identity check,
so the transcript displayed for conversation B ends up containing A's
confirmed user message and A's assistant reply. -/
theorem C2_stale_completion_applied :
    leakTrace.currentConversationId = some "B" ∧
    respA.message ∈ leakTrace.messages ∧
    respA.guru_response ∈ leakTrace.messages ∧
    leakTrace.messages = [msgB1, respA.message, respA.guru_response] := by
  decide

/-- C3: a failed send rolls the transcript back exactly: starting from any
reachable state with no send in flight and a non-blank input buffer, after
the optimistic append and the failure continuation the transcript equals,
by content and order, the transcript before the append, and the input
buffer holds the trimmed text the user submitted (the text the pipeline
sent). -/
theorem C3_failed_send_rollback {s : ChatState} (h : Reachable s)
    (hnf : s.inflight = none) (now : Nat) (ht : jsTrim s.message ≠ "") :
    (step (step s (.submit now)) .sendErr).messages = s.messages ∧
    (step (step s (.submit now)) .sendErr).message = jsTrim s.message := by
  have hconf := (chatInv_of_reachable h).2.1 hnf
  rw [step_submit_accepted now ht hnf]
  rw [step_sendErr_of_inflight rfl]
  constructor
  · show ((s.messages ++ [tempMsg now (jsTrim s.message)]).filter
        fun m => m.id ≠ MsgId.temp now) = s.messages
    rw [List.filter_append, filter_ne_temp_of_confirmed hconf,
        filter_tempMsg_self]
    simp
  · rfl

theorem C3_failed_send_rollback_witness :
    (step (step s0 (.submit 7)) .sendErr).messages = s0.messages ∧
    (step (step s0 (.submit 7)) .sendErr).message = jsTrim s0.message :=
  C3_failed_send_rollback
    (show Reachable s0 from Reachable.step (Reachable.init none) (by rfl))
    (by rfl) 7 (by decide)

theorem reachable_s0 : Reachable s0 :=
  Reachable.step (Reachable.init none) (by rfl)

theorem send_roundtrip_messages {s : ChatState} (h : Reachable s)
    (hnf : s.inflight = none) (now : Nat) (ht : jsTrim s.message ≠ "")
    (resp : ChatResponse) :
    (step (step s (.submit now)) (.sendOk resp)).messages
        = s.messages ++ [resp.message, resp.guru_response] := by
  have hconf := (chatInv_of_reachable h).2.1 hnf
  rw [step_submit_accepted now ht hnf, step_sendOk_of_inflight rfl resp,
      handleSendSuccess_messages]
  congr 1
  show ((s.messages ++ [tempMsg now (jsTrim s.message)]).filter
      fun m => m.id ≠ MsgId.temp now) = s.messages
  rw [List.filter_append, filter_ne_temp_of_confirmed hconf,
      filter_tempMsg_self]
  simp

/-- C4: a successful send reconciles in one atomic `setMessages` update:
the final transcript is the pre-send transcript plus the server-confirmed
user message and the assistant reply, so it has exactly one fewer transient
entry than immediately after the optimistic append and exactly two more
confirmed entries than before the send began. -/
theorem C4_success_reconciliation {s : ChatState} (h : Reachable s)
    (hnf : s.inflight = none) (now : Nat) (ht : jsTrim s.message ≠ "")
    (resp : ChatResponse) (hr : serverEvent (.sendOk resp) = true) :
    (step (step s (.submit now)) (.sendOk resp)).messages
        = s.messages ++ [resp.message, resp.guru_response] ∧
    pendingCount (step (step s (.submit now)) (.sendOk resp))
        = pendingCount (step s (.submit now)) - 1 ∧
    pendingCount (step s (.submit now)) = pendingCount s + 1 ∧
    confirmedCount (step (step s (.submit now)) (.sendOk resp))
        = confirmedCount s + 2 := by
  have hconf := (chatInv_of_reachable h).2.1 hnf
  have hr2 : ∀ m ∈ [resp.message, resp.guru_response],
      m.isTransient = false := by
    unfold serverEvent at hr
    simp only [Bool.and_eq_true, Bool.not_eq_true'] at hr
    intro m hm
    simp only [List.mem_cons, List.not_mem_nil, or_false] at hm
    rcases hm with rfl | rfl
    · exact hr.1
    · exact hr.2
  have hps : pendingCount s = 0 := by
    unfold pendingCount
    rw [filter_transient_eq_nil hconf]
    rfl
  have hm2 := send_roundtrip_messages h hnf now ht resp
  have hp1 : pendingCount (step s (.submit now)) = 1 := by
    unfold pendingCount
    rw [step_submit_accepted now ht hnf]
    show (List.filter _
      (s.messages ++ [tempMsg now (jsTrim s.message)])).length = 1
    rw [List.filter_append, filter_transient_eq_nil hconf]
    rfl
  have hp2 : pendingCount (step (step s (.submit now)) (.sendOk resp)) = 0 := by
    unfold pendingCount
    rw [hm2, List.filter_append, filter_transient_eq_nil hconf,
        filter_transient_eq_nil hr2]
    rfl
  have hc2 : confirmedCount (step (step s (.submit now)) (.sendOk resp))
      = confirmedCount s + 2 := by
    unfold confirmedCount
    rw [hm2, List.filter_append]
    have hkeep : (([resp.message, resp.guru_response] : List Msg).filter
        fun m => !m.isTransient) = [resp.message, resp.guru_response] := by
      rw [List.filter_eq_self]
      intro a ha
      simp [hr2 a ha]
    rw [hkeep, List.length_append]
    rfl
  exact ⟨hm2, by omega, by omega, hc2⟩

theorem C4_success_reconciliation_witness :
    (step (step s0 (.submit 7)) (.sendOk respW)).messages
        = s0.messages ++ [respW.message, respW.guru_response] ∧
    pendingCount (step (step s0 (.submit 7)) (.sendOk respW))
        = pendingCount (step s0 (.submit 7)) - 1 ∧
    pendingCount (step s0 (.submit 7)) = pendingCount s0 + 1 ∧
    confirmedCount (step (step s0 (.submit 7)) (.sendOk respW))
        = confirmedCount s0 + 2 :=
  C4_success_reconciliation reachable_s0 (by rfl) 7 (by decide) respW
    (by decide)

/-- C5: in any reachable state in which a pending message exists, an
attempt to submit another (non-blank) message is rejected by the in-flight
guard — the spec's ConcurrentSendError — before any network call, and the
entire component state, the transcript included, is unchanged. -/
theorem C5_concurrent_send_rejected {s : ChatState} (h : Reachable s)
    (hp : pendingCount s = 1) (now : Nat) (ht : jsTrim s.message ≠ "") :
    (handleSendMessageStart s now).1 = SendOutcome.concurrentSendError ∧
    SendOutcome.issuedRequest (handleSendMessageStart s now).1 = false ∧
    (handleSendMessageStart s now).2 = s := by
  obtain ⟨h1, h2, h3⟩ := chatInv_of_reachable h
  have hl : s.isLoading = true := by
    rcases hs : s.inflight with _ | ctx
    · exfalso
      have h0 : pendingCount s = 0 := by
        unfold pendingCount
        rw [filter_transient_eq_nil (h2 hs)]
        rfl
      omega
    · unfold ChatState.isLoading
      rw [hs]
      rfl
  rw [handleSendMessageStart_concurrent now ht hl]
  exact ⟨rfl, rfl, rfl⟩

theorem C5_concurrent_send_rejected_witness :
    (handleSendMessageStart sC5 2).1 = SendOutcome.concurrentSendError ∧
    SendOutcome.issuedRequest (handleSendMessageStart sC5 2).1 = false ∧
    (handleSendMessageStart sC5 2).2 = sC5 :=
  C5_concurrent_send_rejected
    (show Reachable sC5 from
      Reachable.step (Reachable.step reachable_s0 (by rfl)) (by rfl))
    (by decide) 2 (by decide)

/-- C6: a successful send from the Draft state (no active conversation id)
adopts the newly assigned conversation id as the active id and navigates to
it; the route-parameter effect then issues no history load and changes
nothing, so the reconciled transcript already shown is kept as-is. -/
theorem C6_draft_adoption_without_reload {s : ChatState} (h : Reachable s)
    (hnf : s.inflight = none) (hdraft : s.currentConversationId = none)
    (now : Nat) (ht : jsTrim s.message ≠ "") (resp : ChatResponse) :
    (step (step s (.submit now)) (.sendOk resp)).currentConversationId
        = some resp.conversation_id ∧
    (step (step s (.submit now)) (.sendOk resp)).routeParam
        = some resp.conversation_id ∧
    conversationIdEffect (step (step s (.submit now)) (.sendOk resp))
        = (step (step s (.submit now)) (.sendOk resp), false) ∧
    (step (step s (.submit now)) (.sendOk resp)).messages
        = s.messages ++ [resp.message, resp.guru_response] := by
  have hm2 := send_roundtrip_messages h hnf now ht resp
  rw [step_submit_accepted now ht hnf, step_sendOk_of_inflight rfl resp,
      handleSendSuccess_adopt _ _ _ (by exact hdraft)] at hm2 ⊢
  refine ⟨rfl, rfl, ?_, hm2⟩
  unfold conversationIdEffect
  simp

theorem C6_draft_adoption_without_reload_witness :
    (step (step s0 (.submit 7)) (.sendOk respW)).currentConversationId
        = some respW.conversation_id ∧
    (step (step s0 (.submit 7)) (.sendOk respW)).routeParam
        = some respW.conversation_id ∧
    conversationIdEffect (step (step s0 (.submit 7)) (.sendOk respW))
        = (step (step s0 (.submit 7)) (.sendOk respW), false) ∧
    (step (step s0 (.submit 7)) (.sendOk respW)).messages
        = s0.messages ++ [respW.message, respW.guru_response] :=
  C6_draft_adoption_without_reload reachable_s0 (by rfl) (by rfl) 7
    (by decide) respW

/-- C7: once the DELETE of the currently active conversation succeeds, the
handler runs `handleNewConversation`: the Navigation Binder is in Draft
(active conversation id null, route back to /chat) and the transcript is
empty. -/
theorem C7_delete_active_clears {s : ChatState} {c : String}
    (hact : s.currentConversationId = some c) :
    (step s (.deleteOk c)).currentConversationId = none ∧
    (step s (.deleteOk c)).messages = [] ∧
    (step s (.deleteOk c)).routeParam = none := by
  show (handleDeleteConversation s c).currentConversationId = none ∧
    (handleDeleteConversation s c).messages = [] ∧
    (handleDeleteConversation s c).routeParam = none
  unfold handleDeleteConversation
  rw [if_pos hact]
  exact ⟨rfl, rfl, rfl⟩

theorem C7_delete_active_clears_witness :
    (step sA (.deleteOk "A")).currentConversationId = none ∧
    (step sA (.deleteOk "A")).messages = [] ∧
    (step sA (.deleteOk "A")).routeParam = none :=
  C7_delete_active_clears (show sA.currentConversationId = some "A" from rfl)

/-- C9: a successful deletion of a conversation that is not the active one
leaves the whole page state unchanged — displayed transcript and active
conversation id included; the only consequence is the directory refresh it
issues, whose completion replaces only the sidebar `conversations` list. -/
theorem C9_delete_inactive_frame {s : ChatState} {c : String}
    (hne : s.currentConversationId ≠ some c) (convs : List ConvSummary) :
    step s (.deleteOk c) = s ∧
    (step (step s (.deleteOk c)) (.dirLoaded convs)).messages = s.messages ∧
    (step (step s (.deleteOk c)) (.dirLoaded convs)).currentConversationId
        = s.currentConversationId ∧
    (step (step s (.deleteOk c)) (.dirLoaded convs)).conversations = convs := by
  have hstep : step s (.deleteOk c) = s := by
    show handleDeleteConversation s c = s
    unfold handleDeleteConversation
    rw [if_neg hne]
  rw [hstep]
  exact ⟨rfl, rfl, rfl, rfl⟩

theorem C9_delete_inactive_frame_witness :
    step sA (.deleteOk "B") = sA ∧
    (step (step sA (.deleteOk "B")) (.dirLoaded [convW])).messages
        = sA.messages ∧
    (step (step sA (.deleteOk "B")) (.dirLoaded [convW])).currentConversationId
        = sA.currentConversationId ∧
    (step (step sA (.deleteOk "B")) (.dirLoaded [convW])).conversations
        = [convW] :=
  C9_delete_inactive_frame (by decide) [convW]

/-- C8: a submit whose text is empty or whitespace-only after trimming is
rejected by the guard — the spec's ValidationError — before any network
call, and the whole state (transcript, active conversation id, input
buffer) is unchanged. -/
theorem C8_blank_input_rejected (s : ChatState) (now : Nat)
    (ht : jsTrim s.message = "") :
    (handleSendMessageStart s now).1 = SendOutcome.validationError ∧
    SendOutcome.issuedRequest (handleSendMessageStart s now).1 = false ∧
    (handleSendMessageStart s now).2 = s := by
  rw [handleSendMessageStart_validation now ht]
  exact ⟨rfl, rfl, rfl⟩

theorem C8_blank_input_rejected_witness :
    (handleSendMessageStart sWs 4).1 = SendOutcome.validationError ∧
    SendOutcome.issuedRequest (handleSendMessageStart sWs 4).1 = false ∧
    (handleSendMessageStart sWs 4).2 = sWs :=
  C8_blank_input_rejected sWs 4 (by decide)

/-- C10: whether a send succeeds or fails, after its continuation (with the
`finally` clause) has run, `isLoading` is false again, and a subsequent
submit with non-blank text is accepted: a failed send never leaves the
pipeline permanently blocked. -/
theorem C10_loading_cleared_after_send {s : ChatState} {ctx : InFlightSend}
    (h : s.inflight = some ctx) (resp : ChatResponse) (t : String)
    (ht : jsTrim t ≠ "") (now : Nat) :
    (step s (.sendOk resp)).isLoading = false ∧
    (step s .sendErr).isLoading = false ∧
    (handleSendMessageStart (step (step s (.sendOk resp)) (.setInput t))
        now).1 = SendOutcome.started (.temp now) ∧
    (handleSendMessageStart (step (step s .sendErr) (.setInput t))
        now).1 = SendOutcome.started (.temp now) := by
  have hok : (step s (.sendOk resp)).inflight = none := by
    rw [step_sendOk_of_inflight h resp]
    exact handleSendSuccess_inflight s ctx resp
  have herr : (step s .sendErr).inflight = none := by
    rw [step_sendErr_of_inflight h]
    rfl
  refine ⟨?_, ?_, ?_, ?_⟩
  · unfold ChatState.isLoading
    rw [hok]
    rfl
  · unfold ChatState.isLoading
    rw [herr]
    rfl
  · rw [handleSendMessageStart_accepted now (by exact ht) (by exact hok)]
  · rw [handleSendMessageStart_accepted now (by exact ht) (by exact herr)]

theorem C10_loading_cleared_after_send_witness :
    (step sInflight (.sendOk respW)).isLoading = false ∧
    (step sInflight .sendErr).isLoading = false ∧
    (handleSendMessageStart (step (step sInflight (.sendOk respW))
        (.setInput "again")) 9).1 = SendOutcome.started (.temp 9) ∧
    (handleSendMessageStart (step (step sInflight .sendErr)
        (.setInput "again")) 9).1 = SendOutcome.started (.temp 9) :=
  C10_loading_cleared_after_send
    (show sInflight.inflight =
        some { tempId := .temp 3, userMessage := "hello",
               convIdAtStart := none } from by decide)
    respW "again" (by decide) 9
